import Mathlib

/-!
Shallow embedding of `src/imgviewer.py` (class `ImageViewer`) from the
tk-image-viewer repository: the image collection, navigation, transform
and save logic.

Bitmaps are modelled as a colour mode plus a grid of pixels.  The
library boundary (`os.listdir`, `ImageTk.PhotoImage(file = ...)`,
`PIL.Image.save`) is modelled by an explicit environment `Env`, with
`none` / `.error` standing for the exception the library call would
raise.  A Python method that can raise an uncaught exception returns a
`PyResult`, which carries the state of the object at the moment the
exception escapes: attribute assignments executed before the raise
survive, exactly as in Python.
-/

set_option autoImplicit false

/-- Constant `DIR_LEFT = 0` (src/imgviewer.py line 14). -/
def DIR_LEFT : Int := 0

/-- Constant `DIR_RIGHT = 1` (line 15). -/
def DIR_RIGHT : Int := 1

/-- Constant `FLIP_HORIZONTAL = 0` (line 17). -/
def FLIP_HORIZONTAL : Int := 0

/-- Constant `FLIP_VERTICAL = 1` (line 18). -/
def FLIP_VERTICAL : Int := 1

/-- Constant `HEADER` (line 24), the window title prefix. -/
def HEADER : String := "Tk Image Viewer - "

/-- An in-memory bitmap: a PIL colour mode (such as "RGB" or "RGBA")
and a grid of pixel values (rows from top to bottom). -/
structure Img where
  mode : String
  pixels : List (List Nat)
deriving DecidableEq, Repr

/-- `ImageTk.getimage`: converts the displayed photo back to a PIL
image.  Both are modelled by `Img`, so this is the identity. -/
def getimage (img : Img) : Img := img

/-- PIL `rotate(90, expand = True)`: rotate a quarter turn
counterclockwise. -/
def pilRotateCCW (i : Img) : Img :=
  { i with pixels := (i.pixels.transpose).reverse }

/-- PIL `rotate(-90, expand = True)`: rotate a quarter turn
clockwise. -/
def pilRotateCW (i : Img) : Img :=
  { i with pixels := (i.pixels.reverse).transpose }

/-- PIL `transpose(Image.FLIP_LEFT_RIGHT)`: mirror over the vertical
axis. -/
def pilFlipLR (i : Img) : Img :=
  { i with pixels := i.pixels.map List.reverse }

/-- PIL `transpose(Image.FLIP_TOP_BOTTOM)`: mirror over the horizontal
axis. -/
def pilFlipTB (i : Img) : Img :=
  { i with pixels := i.pixels.reverse }

/-- PIL `convert(\x27RGB\x27)` as used on line 204: the colour mode becomes
"RGB"; any alpha channel is dropped, pixel geometry is unchanged. -/
def pilConvertRGB (i : Img) : Img :=
  { i with mode := "RGB" }

/-- Whether a PIL colour mode carries an alpha channel (the modes RGBA,
LA and PA). -/
def hasAlpha (i : Img) : Bool :=
  i.mode = "RGBA" || i.mode = "LA" || i.mode = "PA"

/-- The mutable attributes of the `ImageViewer` object that the claims
are about: `curr_dir`, `curr_dir_images`, `curr_img_index`, `curr_img`,
the window title, and the log of alert pop-ups raised via
`raise_alert`. -/
structure ViewerState where
  curr_dir : String
  curr_dir_images : List String
  curr_img_index : Int
  curr_img : Img
  title : String
  alerts : List String
deriving DecidableEq, Repr

/-- Outcome of a Python method on the viewer: normal return, or an
uncaught exception (named by `err`) escaping with the object in the
state it had at the moment of the raise. -/
inductive PyResult (σ : Type) where
  | ok (s : σ)
  | exn (err : String) (s : σ)
deriving DecidableEq, Repr

/-- The state of the viewer object after a method ran, whether it
returned normally or an exception escaped the Tkinter callback (the
object survives either way). -/
def stateAfter : PyResult ViewerState → ViewerState
  | .ok s => s
  | .exn _ s => s

/-- The external collaborators: `os.listdir` (`none` models `OSError` /
`FileNotFoundError`), image loading via `ImageTk.PhotoImage(file = p)`
(`none` models the load failing), and `PIL.Image.save` (`.error e`
models the library raising exception `e`). -/
structure Env where
  listdir : String → Option (List String)
  loadImg : String → Option Img
  pilSave : String → Img → Except String Unit

/-- Python list indexing `l[i]`: negative indices count from the end;
`none` models `IndexError`. -/
def pyIdx {α : Type} (l : List α) (i : Int) : Option α :=
  if i < 0 then
    if i + l.length < 0 then none else l.get? (i + l.length).toNat
  else l.get? i.toNat

/-- Python `str.endswith(suffix)`: the string ends with the given
suffix, compared exactly (case-sensitively).  Stated over the character
lists so that it evaluates by kernel reduction. -/
def strEndsWith (s suffix : String) : Bool :=
  List.isPrefixOf (suffix.toList.reverse) (s.toList.reverse)

/-- Python `str.lower()`: every character mapped to lowercase. -/
def strToLower (s : String) : String :=
  String.mk (s.toList.map Char.toLower)

/-- `ImageViewer.raise_alert` (lines 282-293): shows a pop-up; modelled
as appending the message to the alert log.  No other state changes. -/
def raise_alert (s : ViewerState) (msg : String) : ViewerState :=
  { s with alerts := s.alerts ++ [msg] }

/-- `ImageViewer.file_supported` (lines 220-228): the loop over
`valid_exts` returns `True` on the first extension the path ends with,
else `False`. -/
def valid_exts : List String := [".jpg", ".jpeg", ".png", ".bmp", ".gif", ".ico"]

/-- `ImageViewer.file_supported` (lines 220-228). -/
def file_supported (file_path : String) : Bool :=
  valid_exts.any (fun ext => strEndsWith file_path ext)

/-- `ImageViewer.collect_image_refs` (lines 210-218): clears
`curr_dir_images`, then appends `curr_dir + "/" + file` for each
supported `file` in `os.listdir(curr_dir)`, in listing order. -/
def collect_image_refs (env : Env) (s : ViewerState) : PyResult ViewerState :=
  let s1 := { s with curr_dir_images := [] }
  match env.listdir s1.curr_dir with
  | none => .exn "OSError" s1
  | some files =>
      let refs := (files.filter (fun f => file_supported f)).map (fun f => s1.curr_dir ++ "/" ++ f)
      .ok { s1 with curr_dir_images := refs }

/-- Lines 129-132 (also 189-192): load the image at
`curr_dir_images[curr_img_index]`, display it and set the window
title.  Raises `IndexError` when the index is out of range for the
list, and the Tk error when the file cannot be loaded. -/
def display_current (env : Env) (s1 : ViewerState) : PyResult ViewerState :=
  match pyIdx s1.curr_dir_images s1.curr_img_index with
  | none => .exn "IndexError" s1
  | some path =>
      match env.loadImg path with
      | none => .exn "TclError" s1
      | some img => .ok { s1 with curr_img := img, title := HEADER ++ path }

/-- `ImageViewer.cycle_image` (lines 113-132): the if/elif/else updates
`curr_img_index` (or raises an alert on an invalid direction); the
method then reloads and redisplays the image at the current index
(`display_current`). -/
def cycle_image (env : Env) (s : ViewerState) (direction : Int) : PyResult ViewerState :=
  let s1 :=
    if direction = DIR_LEFT then
      let i := s.curr_img_index - 1
      let i := if i < 0 then (s.curr_dir_images.length : Int) - 1 else i
      { s with curr_img_index := i }
    else if direction = DIR_RIGHT then
      let i := s.curr_img_index + 1
      let i := if i ≥ (s.curr_dir_images.length : Int) then 0 else i
      { s with curr_img_index := i }
    else
      raise_alert s "Error: Invalid image cycle direction!"
  display_current env s1

/-- `ImageViewer.rotate_image` (lines 134-146): takes the CURRENTLY
DISPLAYED bitmap via `ImageTk.getimage(self.curr_img)`, rotates it (or
alerts on an invalid direction), and overwrites `self.curr_img` with
the result. -/
def rotate_image (s : ViewerState) (direction : Int) : ViewerState :=
  let rotated_img := getimage s.curr_img
  let step :=
    if direction = DIR_LEFT then (s, pilRotateCCW rotated_img)
    else if direction = DIR_RIGHT then (s, pilRotateCW rotated_img)
    else (raise_alert s "ERROR: Cannot perform rotation operation.", rotated_img)
  { step.1 with curr_img := step.2 }

/-- `ImageViewer.flip_image` (lines 148-160): same pattern as
`rotate_image`, mirroring the currently displayed bitmap in place. -/
def flip_image (s : ViewerState) (direction : Int) : ViewerState :=
  let flipped_img := getimage s.curr_img
  let step :=
    if direction = FLIP_HORIZONTAL then (s, pilFlipLR flipped_img)
    else if direction = FLIP_VERTICAL then (s, pilFlipTB flipped_img)
    else (raise_alert s "ERROR: Cannot perform rotation operation.", flipped_img)
  { step.1 with curr_img := step.2 }

/-- `os.path.dirname`: everything up to (excluding) the last "/",
with trailing slashes stripped unless the head is all slashes.  Stated
over the character lists so that it evaluates by kernel reduction. -/
def dirname (p : String) : String :=
  let rev := p.toList.reverse
  let revHead := rev.dropWhile (fun c => c ≠ ('/' : Char))
  let stripped :=
    if revHead.all (fun c => c = ('/' : Char)) then revHead
    else revHead.dropWhile (fun c => c = ('/' : Char))
  String.mk stripped.reverse

/-- `ImageViewer.open_image` (lines 162-176): sets `curr_dir` to the
directory of the chosen file, loads and displays that file, sets the
title, then refreshes `curr_dir_images`.  `curr_img_index` is never
assigned. -/
def open_image (env : Env) (s : ViewerState) (img_filepath : String) : PyResult ViewerState :=
  let s1 := { s with curr_dir := dirname img_filepath }
  match env.loadImg img_filepath with
  | none => .exn "TclError" s1
  | some img =>
      let s2 := { s1 with curr_img := img, title := HEADER ++ img_filepath }
      collect_image_refs env s2

/-- `ImageViewer.open_folder` (lines 178-192): sets `curr_dir`,
refreshes `curr_dir_images`, sets `curr_img_index = 0`, then loads and
displays the image at index 0 (raising `IndexError` when the folder
has no supported images). -/
def open_folder (env : Env) (s : ViewerState) (new_dir : String) : PyResult ViewerState :=
  let s1 := { s with curr_dir := new_dir }
  match collect_image_refs env s1 with
  | .exn err st => .exn err st
  | .ok s2 =>
      let s3 := { s2 with curr_img_index := 0 }
      display_current env s3

/-- `ImageViewer.save_image` (lines 194-208): if the chosen path ends
with ".jpg" the displayed image is converted to RGB first; in every
case the image is handed to `PIL.Image.save` with the path exactly as
given.  The viewer performs no validation and catches nothing, so the
library outcome is the outcome. -/
def save_image (env : Env) (s : ViewerState) (new_img_path : String) : Except String Unit :=
  if strEndsWith new_img_path ".jpg" then
    let img_to_save := pilConvertRGB (getimage s.curr_img)
    env.pilSave new_img_path img_to_save
  else
    let img_to_save := getimage s.curr_img
    env.pilSave new_img_path img_to_save

/-- One press of the "Next Image" button: run `cycle_image` with
`DIR_RIGHT` and keep the object state whether or not an exception
escaped the callback. -/
def stepR (env : Env) (t : ViewerState) : ViewerState :=
  stateAfter (cycle_image env t DIR_RIGHT)

/-- One press of the "Previous Image" button. -/
def stepL (env : Env) (t : ViewerState) : ViewerState :=
  stateAfter (cycle_image env t DIR_LEFT)

/-- Modelled from the spec (section 4.1): the scan filter accepts a
file whose extension, compared case-insensitively, is one of the six
supported extensions. -/
def spec_file_supported (p : String) : Bool :=
  valid_exts.any (fun ext => strEndsWith (strToLower p) ext)

/-- Modelled from the spec (section 4.4): the five supported save
formats offered by the save dialog. -/
def spec_save_formats : List String := [".png", ".jpg", ".bmp", ".gif", ".ico"]

/-- Modelled from the spec (section 4.4): whether an output path has
one of the five supported save formats. -/
def spec_ext_supported (p : String) : Bool :=
  spec_save_formats.any (fun ext => strEndsWith p ext)

/-- Sample bitmap: a single grey pixel. -/
def imgA : Img := ⟨"RGB", [[7]]⟩

/-- Sample bitmap: a 2 by 2 image whose four pixels are pairwise
distinct, so every rotation and flip changes it. -/
def imgB : Img := ⟨"RGB", [[1, 2], [3, 4]]⟩

/-- Sample bitmap with an alpha channel. -/
def imgAlpha : Img := ⟨"RGBA", [[1, 2], [3, 4]]⟩

/-- Sample state whose collection is empty. -/
def sEmpty : ViewerState := ⟨"./images", [], 0, imgA, "t", []⟩

/-- Sample state displaying `imgB`. -/
def sB : ViewerState := ⟨"d", ["d/a.jpg"], 0, imgB, "t", []⟩

/-- Sample state with a two-image collection, cursor on the first. -/
def sW : ViewerState := ⟨"d", ["d/a.jpg", "d/b.png"], 0, imgA, "t", []⟩

/-- Sample state used for the directory-scan claims. -/
def s3 : ViewerState := ⟨"d", [], 0, imgA, "t", []⟩

/-- Sample state with a stale cursor position 1, used for the
open-image claims. -/
def s5 : ViewerState := ⟨"x", ["old"], 1, imgA, "t", []⟩

/-- Sample state used for the error-atomicity claims. -/
def s9 : ViewerState := ⟨"./images", ["./images/icon.png"], 0, imgA, "t", []⟩

/-- Sample state displaying an image with alpha. -/
def sAlpha : ViewerState := ⟨"d", ["d/a.png"], 0, imgAlpha, "t", []⟩

/-- Environment whose directory "d" lists three images in an order
`os.listdir` may legitimately produce: not sorted. -/
def env3 : Env :=
  { listdir := fun p => if p = "d" then some ["b.png", "a.jpg", "c.gif"] else none
    loadImg := fun _ => some imgA
    pilSave := fun _ _ => .ok () }

/-- Environment whose directory "/d" holds `a.jpg` and `b.png`. -/
def env5 : Env :=
  { listdir := fun p => if p = "/d" then some ["a.jpg", "b.png"] else none
    loadImg := fun _ => some imgA
    pilSave := fun _ _ => .ok () }

/-- Environment where every library call succeeds. -/
def envW : Env :=
  { listdir := fun _ => some ["a.jpg", "b.png"]
    loadImg := fun _ => some imgA
    pilSave := fun _ _ => .ok () }

/-- Environment where saving always succeeds (a writable disk and a
library that knows the format, as PIL does for ".tiff"). -/
def envOk : Env :=
  { listdir := fun _ => none
    loadImg := fun _ => none
    pilSave := fun _ _ => .ok () }

/-- Environment modelling the real PIL behaviour on a JPEG target: the
encoder raises `OSError` when handed a bitmap that still has an alpha
channel, and succeeds otherwise. -/
def envJpeg : Env :=
  { listdir := fun _ => none
    loadImg := fun _ => none
    pilSave := fun _ img =>
      if hasAlpha img then .error "OSError: cannot write mode RGBA as JPEG" else .ok () }

/-- Environment where every library call fails. -/
def envNone : Env :=
  { listdir := fun _ => none
    loadImg := fun _ => none
    pilSave := fun _ _ => .error "e" }

/-- Whatever `display_current` does, it only touches the displayed
image and the title: directory, collection, cursor and alerts are the
ones of the state it was given, whether it returns or raises. -/
theorem display_current_proj (env : Env) (s1 : ViewerState) :
    (stateAfter (display_current env s1)).curr_dir = s1.curr_dir ∧
    (stateAfter (display_current env s1)).curr_dir_images = s1.curr_dir_images ∧
    (stateAfter (display_current env s1)).curr_img_index = s1.curr_img_index ∧
    (stateAfter (display_current env s1)).alerts = s1.alerts := by
  unfold display_current
  split
  · exact ⟨rfl, rfl, rfl, rfl⟩
  · split
    · exact ⟨rfl, rfl, rfl, rfl⟩
    · exact ⟨rfl, rfl, rfl, rfl⟩

/-- A "Next Image" press keeps the collection and advances the cursor
exactly as the source does: increment, and reset to 0 when the
incremented value reaches the length of the list. -/
theorem stepR_proj (env : Env) (s : ViewerState) :
    (stepR env s).curr_dir_images = s.curr_dir_images ∧
    (stepR env s).curr_img_index =
      (if s.curr_img_index + 1 ≥ (s.curr_dir_images.length : Int) then 0
       else s.curr_img_index + 1) := by
  unfold stepR cycle_image
  rw [if_neg (by decide : ¬ (DIR_RIGHT = DIR_LEFT)), if_pos rfl]
  exact ⟨(display_current_proj env _).2.1, (display_current_proj env _).2.2.1⟩

/-- A "Previous Image" press keeps the collection and moves the cursor
as the source does: decrement, and reset to length minus one when the
decremented value is negative. -/
theorem stepL_proj (env : Env) (s : ViewerState) :
    (stepL env s).curr_dir_images = s.curr_dir_images ∧
    (stepL env s).curr_img_index =
      (if s.curr_img_index - 1 < 0 then (s.curr_dir_images.length : Int) - 1
       else s.curr_img_index - 1) := by
  unfold stepL cycle_image
  rw [if_pos rfl]
  exact ⟨(display_current_proj env _).2.1, (display_current_proj env _).2.2.1⟩

/-- After `k` presses of "Next Image" (for `k` at most the collection
size, starting in range) the collection is unchanged and the cursor
has advanced by `k` with at most one wrap. -/
theorem stepR_iter (env : Env) (s : ViewerState) (k : Nat)
    (h0 : 0 ≤ s.curr_img_index)
    (h1 : s.curr_img_index < (s.curr_dir_images.length : Int)) :
    k ≤ s.curr_dir_images.length →
    ((stepR env)^[k] s).curr_dir_images = s.curr_dir_images ∧
    ((stepR env)^[k] s).curr_img_index =
      (if s.curr_img_index + k < (s.curr_dir_images.length : Int)
       then s.curr_img_index + k
       else s.curr_img_index + k - s.curr_dir_images.length) := by
  induction k with
  | zero =>
    intro _
    refine ⟨rfl, ?_⟩
    simp only [Function.iterate_zero, id_eq, Nat.cast_zero, add_zero]
    split <;> omega
  | succ k ih =>
    intro hk
    obtain ⟨iImg, iIdx⟩ := ih (by omega)
    obtain ⟨pImg, pIdx⟩ := stepR_proj env ((stepR env)^[k] s)
    rw [Function.iterate_succ_apply']
    constructor
    · rw [pImg, iImg]
    · rw [pIdx, iIdx, iImg]
      push_cast
      split_ifs <;> omega

/-- After `k` presses of "Previous Image" (for `k` at most the
collection size, starting in range) the collection is unchanged and
the cursor has moved back by `k` with at most one wrap. -/
theorem stepL_iter (env : Env) (s : ViewerState) (k : Nat)
    (h0 : 0 ≤ s.curr_img_index)
    (h1 : s.curr_img_index < (s.curr_dir_images.length : Int)) :
    k ≤ s.curr_dir_images.length →
    ((stepL env)^[k] s).curr_dir_images = s.curr_dir_images ∧
    ((stepL env)^[k] s).curr_img_index =
      (if 0 ≤ s.curr_img_index - k
       then s.curr_img_index - k
       else s.curr_img_index - k + s.curr_dir_images.length) := by
  induction k with
  | zero =>
    intro _
    refine ⟨rfl, ?_⟩
    simp only [Function.iterate_zero, id_eq, Nat.cast_zero, sub_zero]
    split <;> omega
  | succ k ih =>
    intro hk
    obtain ⟨iImg, iIdx⟩ := ih (by omega)
    obtain ⟨pImg, pIdx⟩ := stepL_proj env ((stepL env)^[k] s)
    rw [Function.iterate_succ_apply']
    constructor
    · rw [pImg, iImg]
    · rw [pIdx, iIdx, iImg]
      push_cast
      split_ifs <;> omega

/-- Claim C4: for every non-empty entries list of length N and every
starting index in range, N presses of "Next Image" return
`curr_img_index` to its original value, and likewise N presses of
"Previous Image"; stepping past the end wraps to 0 and stepping before
the start wraps to N - 1. -/
theorem cycle_full_cycle (env : Env) (s : ViewerState)
    (h0 : 0 ≤ s.curr_img_index)
    (h1 : s.curr_img_index < (s.curr_dir_images.length : Int)) :
    ((stepR env)^[s.curr_dir_images.length] s).curr_img_index = s.curr_img_index ∧
    ((stepL env)^[s.curr_dir_images.length] s).curr_img_index = s.curr_img_index ∧
    (s.curr_img_index = (s.curr_dir_images.length : Int) - 1 →
      (stepR env s).curr_img_index = 0) ∧
    (s.curr_img_index = 0 →
      (stepL env s).curr_img_index = (s.curr_dir_images.length : Int) - 1) := by
  refine ⟨?_, ?_, ?_, ?_⟩
  · obtain ⟨_, hIdx⟩ := stepR_iter env s s.curr_dir_images.length h0 h1 le_rfl
    rw [hIdx]
    split <;> omega
  · obtain ⟨_, hIdx⟩ := stepL_iter env s s.curr_dir_images.length h0 h1 le_rfl
    rw [hIdx]
    split <;> omega
  · intro h
    rw [(stepR_proj env s).2]
    split <;> omega
  · intro h
    rw [(stepL_proj env s).2]
    split <;> omega

/-- Witness for C4 at a concrete two-image collection with the cursor
on the first image. -/
theorem cycle_full_cycle_witness :
    ((0 : Int) ≤ sW.curr_img_index ∧
      sW.curr_img_index < (sW.curr_dir_images.length : Int)) ∧
    (((stepR envW)^[sW.curr_dir_images.length] sW).curr_img_index = sW.curr_img_index ∧
      ((stepL envW)^[sW.curr_dir_images.length] sW).curr_img_index = sW.curr_img_index ∧
      (sW.curr_img_index = (sW.curr_dir_images.length : Int) - 1 →
        (stepR envW sW).curr_img_index = 0) ∧
      (sW.curr_img_index = 0 →
        (stepL envW sW).curr_img_index = (sW.curr_dir_images.length : Int) - 1)) :=
  ⟨⟨by decide, by decide⟩, cycle_full_cycle envW sW (by decide) (by decide)⟩

/-- Claim C1 (code bug): `rotate_image` derives the new bitmap from
the CURRENTLY DISPLAYED image and overwrites `curr_img` with it; the
state retains no copy of the original pixels.  Evaluated at a 2 by 2
image rotated clockwise, then clockwise again: the second rotation is
computed from the already-rotated displayed bitmap. -/
theorem rotate_image_rederives_from_display :
    rotate_image sB DIR_RIGHT = { sB with curr_img := Img.mk "RGB" [[3, 1], [4, 2]] } ∧
    Img.mk "RGB" [[3, 1], [4, 2]] ≠ sB.curr_img ∧
    rotate_image (rotate_image sB DIR_RIGHT) DIR_RIGHT =
      { sB with curr_img := Img.mk "RGB" [[4, 3], [2, 1]] } :=
  ⟨rfl, by decide, rfl⟩

/-- Claim C2 (code bug): cycling an EMPTY collection raises
`IndexError` in both directions instead of being a no-op; for
"Previous Image" the cursor has moreover already been moved to -1 when
the exception escapes. -/
theorem cycle_image_empty_raises :
    cycle_image envW sEmpty DIR_LEFT =
      .exn "IndexError" { sEmpty with curr_img_index := -1 } ∧
    cycle_image envW sEmpty DIR_RIGHT = .exn "IndexError" sEmpty :=
  ⟨rfl, rfl⟩

/-- When the current index is in range and the file there loads, the
redisplay step succeeds and only replaces the displayed image and the
title. -/
theorem display_current_ok (env : Env) (s1 : ViewerState) (path : String) (img : Img)
    (hp : pyIdx s1.curr_dir_images s1.curr_img_index = some path)
    (hl : env.loadImg path = some img) :
    display_current env s1 = .ok { s1 with curr_img := img, title := HEADER ++ path } := by
  unfold display_current
  simp only [hp, hl]

/-- Claim C10: for a direction that is neither `DIR_LEFT` nor
`DIR_RIGHT`, `cycle_image` leaves `curr_img_index`, `curr_dir` and
`curr_dir_images` unchanged; it raises the invalid-direction alert and
merely redisplays the image at the current index. -/
theorem cycle_invalid_direction_frame (env : Env) (s : ViewerState) (d : Int)
    (path : String) (img : Img)
    (hd1 : d ≠ DIR_LEFT) (hd2 : d ≠ DIR_RIGHT)
    (hp : pyIdx s.curr_dir_images s.curr_img_index = some path)
    (hl : env.loadImg path = some img) :
    cycle_image env s d =
      .ok { s with curr_img := img, title := HEADER ++ path,
                   alerts := s.alerts ++ ["Error: Invalid image cycle direction!"] } := by
  unfold cycle_image
  rw [if_neg hd1, if_neg hd2]
  exact display_current_ok env
    (raise_alert s "Error: Invalid image cycle direction!") path img hp hl

/-- Witness for C10 at direction 5 on a two-image collection. -/
theorem cycle_invalid_direction_frame_witness :
    (5 : Int) ≠ DIR_LEFT ∧ (5 : Int) ≠ DIR_RIGHT ∧
    pyIdx sW.curr_dir_images sW.curr_img_index = some "d/a.jpg" ∧
    envW.loadImg "d/a.jpg" = some imgA ∧
    cycle_image envW sW 5 =
      .ok { sW with curr_img := imgA, title := HEADER ++ "d/a.jpg",
                    alerts := sW.alerts ++ ["Error: Invalid image cycle direction!"] } :=
  ⟨by decide, by decide, by decide, by decide,
    cycle_invalid_direction_frame envW sW 5 "d/a.jpg" imgA (by decide) (by decide)
      (by decide) (by decide)⟩

/-- Claim C3 counterexample: with `os.listdir` returning the directory
entries as `b.png, a.jpg, c.gif` (a legitimate listing order, since
`os.listdir` guarantees no order), the scan keeps that order; it is
not the claimed lexicographic order `a.jpg, b.png, c.gif`. -/
theorem collect_image_refs_unsorted_cex :
    collect_image_refs env3 s3 =
      .ok { s3 with curr_dir_images := ["d/b.png", "d/a.jpg", "d/c.gif"] } ∧
    ["d/b.png", "d/a.jpg", "d/c.gif"] ≠ ["d/a.jpg", "d/b.png", "d/c.gif"] :=
  ⟨by decide, by decide⟩

/-- Claim C3 as amended: the scan returns the supported files in the
order produced by `os.listdir` (filtering preserves listing order),
each prefixed with the directory and "/"; no sorting is applied and
the cursor is not touched by the scan itself. -/
theorem collect_image_refs_listing_order (env : Env) (s : ViewerState)
    (files : List String) (h : env.listdir s.curr_dir = some files) :
    collect_image_refs env s =
      .ok { s with curr_dir_images :=
        (files.filter (fun f => file_supported f)).map (fun f => s.curr_dir ++ "/" ++ f) } := by
  simp only [collect_image_refs, h]

/-- Witness for the amended C3 at the concrete unsorted listing. -/
theorem collect_image_refs_listing_order_witness :
    env3.listdir s3.curr_dir = some ["b.png", "a.jpg", "c.gif"] ∧
    collect_image_refs env3 s3 =
      .ok { s3 with curr_dir_images := ((["b.png", "a.jpg", "c.gif"] : List String).filter (fun f => file_supported f)).map (fun f => s3.curr_dir ++ "/" ++ f) } :=
  ⟨by decide, collect_image_refs_listing_order env3 s3 ["b.png", "a.jpg", "c.gif"] (by decide)⟩

/-- Claim C5 counterexample: opening `/d/a.jpg` (which sits at
position 0 of the refreshed entries) leaves the stale cursor value 1
in place; the claim says the cursor becomes the position of the opened
file, namely 0. -/
theorem open_image_stale_index_cex :
    stateAfter (open_image env5 s5 "/d/a.jpg") =
      { s5 with curr_dir := "/d", curr_img := imgA, title := HEADER ++ "/d/a.jpg",
                curr_dir_images := ["/d/a.jpg", "/d/b.png"] } ∧
    (stateAfter (open_image env5 s5 "/d/a.jpg")).curr_img_index = 1 ∧
    List.indexOf "/d/a.jpg" ["/d/a.jpg", "/d/b.png"] = 0 ∧
    (1 : Int) ≠ 0 :=
  ⟨by decide, by decide, by decide, by decide⟩

/-- Claim C5 as amended: `open_image` sets `curr_dir` to the dirname
of the opened file, displays that file, and reloads the entries via
the scan; `curr_img_index` is NOT updated (no positioning on the
opened file, no fallback to 0). -/
theorem open_image_keeps_index (env : Env) (s : ViewerState) (fp : String)
    (img : Img) (files : List String)
    (hload : env.loadImg fp = some img)
    (hlist : env.listdir (dirname fp) = some files) :
    open_image env s fp =
      .ok { s with curr_dir := dirname fp, curr_img := img, title := HEADER ++ fp,
                   curr_dir_images := (files.filter (fun f => file_supported f)).map (fun f => dirname fp ++ "/" ++ f) } := by
  simp only [open_image, hload]
  exact collect_image_refs_listing_order env _ files hlist

/-- Witness for the amended C5 at the concrete two-file directory. -/
theorem open_image_keeps_index_witness :
    env5.loadImg "/d/a.jpg" = some imgA ∧
    env5.listdir (dirname "/d/a.jpg") = some ["a.jpg", "b.png"] ∧
    open_image env5 s5 "/d/a.jpg" =
      .ok { s5 with curr_dir := dirname "/d/a.jpg", curr_img := imgA,
                    title := HEADER ++ "/d/a.jpg",
                    curr_dir_images := ((["a.jpg", "b.png"] : List String).filter (fun f => file_supported f)).map (fun f => dirname "/d/a.jpg" ++ "/" ++ f) } :=
  ⟨by decide, by decide,
    open_image_keeps_index env5 s5 "/d/a.jpg" imgA ["a.jpg", "b.png"] (by decide) (by decide)⟩

/-- Claim C6 counterexample: a file named `photo.PNG` has, compared
case-insensitively, the supported extension `.png`, yet
`file_supported` rejects it, because `str.endswith` is
case-sensitive. -/
theorem file_supported_case_cex :
    spec_file_supported "photo.PNG" = true ∧ file_supported "photo.PNG" = false :=
  ⟨by decide, by decide⟩

/-- Claim C6 as amended: `file_supported` accepts a file name exactly
when it ends, case-sensitively, with one of the six lowercase strings
`.jpg`, `.jpeg`, `.png`, `.bmp`, `.gif`, `.ico`. -/
theorem file_supported_iff_suffix (p : String) :
    file_supported p = true ↔
      (strEndsWith p ".jpg" = true ∨ strEndsWith p ".jpeg" = true ∨ strEndsWith p ".png" = true ∨
       strEndsWith p ".bmp" = true ∨ strEndsWith p ".gif" = true ∨ strEndsWith p ".ico" = true) := by
  simp [file_supported, valid_exts, List.any_cons, List.any_nil, Bool.or_eq_true]

/-- Claim C7 counterexample: saving an RGBA image to a path ending in
".jpeg" hands the encoder the buffer still carrying its alpha channel
(no conversion happens, because the source only checks for the ".jpg"
suffix), and the real JPEG encoder then raises; the same image saved
to ".jpg" is converted and succeeds. -/
theorem save_jpeg_alpha_cex :
    hasAlpha sAlpha.curr_img = true ∧
    save_image envJpeg sAlpha "out.jpeg" = .error "OSError: cannot write mode RGBA as JPEG" ∧
    save_image envJpeg sAlpha "out.jpg" = .ok () :=
  ⟨by decide, rfl, rfl⟩

/-- Claim C7 as amended: on save, exactly one buffer is handed to the
library; its pixels are always those of the displayed image, and its
mode is "RGB" exactly when the output path ends with ".jpg"
(case-sensitive, ".jpeg" not included) — the conversion does not
depend on whether the buffer has alpha. -/
theorem save_image_conversion_rule (env : Env) (s : ViewerState) (p : String) :
    save_image env s p =
      env.pilSave p (Img.mk (if strEndsWith p ".jpg" then "RGB" else s.curr_img.mode) s.curr_img.pixels) := by
  by_cases h : strEndsWith p ".jpg" <;>
    simp [save_image, pilConvertRGB, getimage, h]

/-- Claim C8 counterexample: ".tiff" is not one of the five supported
save formats, yet with a library and disk that accept the write the
save succeeds — the viewer performs no extension validation and raises
no `UnsupportedSaveFormat`. -/
theorem save_unsupported_ext_cex :
    spec_ext_supported "out.tiff" = false ∧
    save_image envOk sAlpha "out.tiff" = .ok () :=
  ⟨by decide, rfl⟩

/-- Claim C8 as amended: the viewer adds no error handling of its own
around saving: the outcome is exactly the library outcome on the
buffer it builds (converted to RGB only for a ".jpg" suffix) — success
whenever the library accepts, regardless of the extension, and the
raw library exception otherwise (never `UnsupportedSaveFormat` or
`WriteFailed`). -/
theorem save_image_no_validation (env : Env) (s : ViewerState) (p : String) (e : String) :
    (env.pilSave p (Img.mk (if strEndsWith p ".jpg" then "RGB" else s.curr_img.mode) s.curr_img.pixels) = .ok () →
      save_image env s p = .ok ()) ∧
    (env.pilSave p (Img.mk (if strEndsWith p ".jpg" then "RGB" else s.curr_img.mode) s.curr_img.pixels) = .error e →
      save_image env s p = .error e) := by
  constructor <;> intro h2 <;>
    · by_cases h : strEndsWith p ".jpg" <;>
        simp only [save_image, pilConvertRGB, getimage, h, if_pos, if_neg, ite_true, ite_false] <;>
        simpa [h] using h2

/-- Witness for the amended C8: with an accepting library, saving to
the unsupported extension ".tiff" succeeds. -/
theorem save_image_no_validation_witness :
    envOk.pilSave "out.tiff" (Img.mk (if strEndsWith "out.tiff" ".jpg" then "RGB" else sAlpha.curr_img.mode) sAlpha.curr_img.pixels) = .ok () ∧
    save_image envOk sAlpha "out.tiff" = .ok () :=
  ⟨rfl, (save_image_no_validation envOk sAlpha "out.tiff" "err").1 rfl⟩

/-- Claim C9 counterexample: when the folder listing fails,
`open_folder` has already overwritten `curr_dir` and cleared
`curr_dir_images`, and the exception escapes: the prior state is NOT
left unchanged. -/
theorem open_folder_failure_mutates_cex :
    open_folder envNone s9 "/bad" =
      .exn "OSError" { s9 with curr_dir := "/bad", curr_dir_images := [] } ∧
    ({ s9 with curr_dir := "/bad", curr_dir_images := ([] : List String) } : ViewerState).curr_dir ≠ s9.curr_dir ∧
    ({ s9 with curr_dir := "/bad", curr_dir_images := ([] : List String) } : ViewerState).curr_dir_images ≠ s9.curr_dir_images :=
  ⟨by decide, by decide, by decide⟩

/-- Claim C9 as amended: failures are not atomic and are not mapped to
error conditions: the uncaught library exception escapes, and the
state mutations made before the failing call survive — `open_folder`
has overwritten `curr_dir` and cleared `curr_dir_images` when the
listing fails, and `open_image` has overwritten `curr_dir` when the
file fails to load. -/
theorem open_failure_state_mutation (env : Env) (s : ViewerState) (d fp : String) :
    (env.listdir d = none →
      open_folder env s d = .exn "OSError" { s with curr_dir := d, curr_dir_images := [] }) ∧
    (env.loadImg fp = none →
      open_image env s fp = .exn "TclError" { s with curr_dir := dirname fp }) := by
  constructor
  · intro h
    simp only [open_folder, collect_image_refs, h]
  · intro h
    simp only [open_image, h]

/-- Witness for the amended C9 with a failing listing and a failing
load. -/
theorem open_failure_state_mutation_witness :
    envNone.listdir "/bad" = none ∧ envNone.loadImg "/f/p.png" = none ∧
    open_folder envNone s9 "/bad" =
      .exn "OSError" { s9 with curr_dir := "/bad", curr_dir_images := [] } ∧
    open_image envNone s9 "/f/p.png" =
      .exn "TclError" { s9 with curr_dir := dirname "/f/p.png" } :=
  ⟨by decide, by decide,
    (open_failure_state_mutation envNone s9 "/bad" "/f/p.png").1 (by decide),
    (open_failure_state_mutation envNone s9 "/bad" "/f/p.png").2 (by decide)⟩
